import Mathlib

/-!
Verification of the DxMian business-management platform client and its
database migrations, against the natural-language specification.

The TypeScript pages issue direct table operations (select / insert /
update / delete) against a hosted Postgres database guarded by row-level
security (RLS) policies.  We embed:

* the pure string utility generateSlug (BusinessSetup page);
* the users-table RLS policy set produced by the final migration
  20251103112302_fix_rls_policies_again.sql, together with Postgres
  permissive-policy evaluation (policies of a command are OR-ed);
* the client-side state transitions of the Bookings, Services and
  Customers pages (handleSubmit, handleDelete, updateBookingStatus);
* the Register page staff-invite flow and the AuthContext signUp flow.

Database tables are lists of row structures; timestamps are naturals;
monetary amounts are integers; a fallible client call returns Except.
-/

namespace DxMian

/-! ## generateSlug (BusinessSetup.tsx)

Source:
  const generateSlug = (name: string) => {
    return name
      .toLowerCase()
      .replace(/[^a-z0-9]+/g, '-')
      .replace(/(^-|-$)/g, '');
  };

We model strings as lists of characters.  toLowerCase is modelled by the
ASCII mapping (uppercase A-Z to a-z); JavaScript applies the full Unicode
mapping, but both fix every character of the slug alphabet a-z, 0-9, -,
which is all the claims below depend on.  The first regex collapses every
maximal run of characters outside [a-z0-9] into a single hyphen, which we
realise as a character map followed by collapsing adjacent hyphens.  The
second regex removes the (at most one) leading hyphen and the (at most
one) trailing hyphen. -/

/-- A character kept by the regex class [a-z0-9]. -/
def isSlugChar (c : Char) : Bool :=
  (('a' ≤ c) && (c ≤ 'z')) || (('0' ≤ c) && (c ≤ '9'))

/-- ASCII lower-casing, the fragment of String.prototype.toLowerCase that
the slug alphabet can observe. -/
def lowerChar (c : Char) : Char :=
  if ('A' ≤ c) && (c ≤ 'Z') then Char.ofNat (c.toNat + 32) else c

/-- Stage one of replace(/[^a-z0-9]+/g, '-'): map every character outside
the class to a hyphen. -/
def hyphenate (l : List Char) : List Char :=
  l.map (fun c => if isSlugChar c then c else '-')

/-- Stage two of replace(/[^a-z0-9]+/g, '-'): a maximal run of characters
outside the class becomes one replacement hyphen, so adjacent hyphens
produced by stage one collapse into one. -/
def squeezeHyphens : List Char → List Char
  | [] => []
  | a :: rest =>
    match rest with
    | [] => [a]
    | b :: _ =>
      if a = '-' && b = '-' then squeezeHyphens rest
      else a :: squeezeHyphens rest

/-- The ^- alternative of replace(/(^-|-$)/g, ''): drop one leading hyphen. -/
def stripLeadHyphen : List Char → List Char
  | [] => []
  | c :: rest => if c = '-' then rest else c :: rest

/-- The -$ alternative of replace(/(^-|-$)/g, ''): drop one trailing hyphen. -/
def stripTrailHyphen (l : List Char) : List Char :=
  (stripLeadHyphen l.reverse).reverse

/-- generateSlug from BusinessSetup.tsx. -/
def generateSlug (s : String) : String :=
  String.mk (stripTrailHyphen (stripLeadHyphen
    (squeezeHyphens (hyphenate (s.data.map lowerChar)))))

example : generateSlug (String.mk ['M', 'y', ' ', 'A', 'w', 'e', 's', 'o', 'm', 'e', '!', '!', 'B', 'i', 'z']) =
    String.mk ['m', 'y', '-', 'a', 'w', 'e', 's', 'o', 'm', 'e', '-', 'b', 'i', 'z'] := by
  decide

example : generateSlug (String.mk ['-', '-', 'a', 'b', '-', '-']) = String.mk ['a', 'b'] := by
  decide

example : generateSlug (String.mk ['!', '?']) = String.mk [] := by
  decide

/-! ## Row types shared by the RLS model and the client operations -/

/-- users.role enum user_role. -/
inductive UserRole
  | businessOwner
  | staff
  | customer
deriving DecidableEq, Repr

/-- bookings.status enum booking_status. -/
inductive BookingStatus
  | pending
  | confirmed
  | completed
  | cancelled
  | noShow
deriving DecidableEq, Repr

/-- payments.status enum payment_status. -/
inductive PaymentStatus
  | pending
  | paid
  | refunded
  | failed
deriving DecidableEq, Repr

/-- A row of the users table (the columns the verified operations touch).
business_id is nullable in the schema (uuid REFERENCES businesses(id)
ON DELETE SET NULL). -/
structure UserRow where
  id : Nat
  email : String
  first_name : String
  last_name : String
  role : UserRole
  email_verified : Bool
  business_id : Option Nat
deriving DecidableEq, Repr

/-! ## Users-table RLS policies after the final migration (C1)

The repository applies its timestamped migrations in filename order; the
last one, 20251103112302_fix_rls_policies_again.sql, drops a list of
users-table policies by name and creates exactly three fresh ones:

  CREATE POLICY "Allow read access to authenticated users"
  ON users FOR SELECT USING (auth.role() = 'authenticated');

  CREATE POLICY "Allow users to insert their own profile"
  ON users FOR INSERT WITH CHECK (auth.uid() = id);

  CREATE POLICY "Allow users to update their own profile"
  ON users FOR UPDATE USING (auth.uid() = id) WITH CHECK (auth.uid() = id);

No later migration drops them.  Postgres RLS policies are permissive by
default: a command is allowed as soon as SOME policy for that command
accepts the row, so access granted by these policies cannot be revoked by
whatever other policies survive from earlier migrations.  We model the
policy expressions that occur in this migration, the migration itself as
a list of drop/create operations over a policy list, and the permissive
evaluation of SELECT / INSERT / UPDATE on a users row. -/

/-- Policy expressions occurring in the final users-table migration. -/
inductive PolicyExpr
  | uidEqId
  | roleIsAuthenticated
deriving DecidableEq, Repr

/-- The command a CREATE POLICY statement is FOR. -/
inductive PolicyCmd
  | selectCmd
  | insertCmd
  | updateCmd
deriving DecidableEq, Repr

/-- A users-table policy: USING is absent on INSERT policies, WITH CHECK
is absent on SELECT policies. -/
structure UsersPolicy where
  name : String
  cmd : PolicyCmd
  usingExpr : Option PolicyExpr
  checkExpr : Option PolicyExpr
deriving DecidableEq, Repr

/-- The caller identity: none is the anon role, some uid is an
authenticated session for auth.uid() = uid. -/
structure AuthCtx where
  uid : Option Nat
deriving DecidableEq, Repr

/-- Evaluate a policy expression against the calling context and a users
row: auth.uid() = id, or auth.role() = 'authenticated'. -/
def evalPolicyExpr : PolicyExpr → AuthCtx → UserRow → Bool
  | .uidEqId, ctx, row => ctx.uid = some row.id
  | .roleIsAuthenticated, ctx, _ => ctx.uid.isSome

/-- A DROP POLICY IF EXISTS or CREATE POLICY statement. -/
inductive PolicyOp
  | dropIfExists (name : String)
  | create (p : UsersPolicy)
deriving DecidableEq, Repr

/-- Apply one statement to the catalog of users-table policies. -/
def applyPolicyOp (ps : List UsersPolicy) : PolicyOp → List UsersPolicy
  | .dropIfExists n => ps.filter (fun p => p.name ≠ n)
  | .create p => ps ++ [p]

/-- The SELECT policy created by 20251103112302_fix_rls_policies_again.sql. -/
def finalSelectPolicy : UsersPolicy :=
  { name := "Allow read access to authenticated users"
    cmd := .selectCmd
    usingExpr := some .roleIsAuthenticated
    checkExpr := none }

/-- The INSERT policy created by 20251103112302_fix_rls_policies_again.sql. -/
def finalInsertPolicy : UsersPolicy :=
  { name := "Allow users to insert their own profile"
    cmd := .insertCmd
    usingExpr := none
    checkExpr := some .uidEqId }

/-- The UPDATE policy created by 20251103112302_fix_rls_policies_again.sql. -/
def finalUpdatePolicy : UsersPolicy :=
  { name := "Allow users to update their own profile"
    cmd := .updateCmd
    usingExpr := some .uidEqId
    checkExpr := some .uidEqId }

/-- The users-table statements of migration
20251103112302_fix_rls_policies_again.sql, in file order. -/
def fixRlsPoliciesAgain : List PolicyOp :=
  [ .dropIfExists ("Enable read access for all users")
  , .dropIfExists ("Enable write access for own profile")
  , .dropIfExists ("Enable insert for new profiles")
  , .dropIfExists ("Users can read own profile")
  , .dropIfExists ("Users can update own profile")
  , .dropIfExists ("Allow new profile creation")
  , .dropIfExists ("Enable full access to authenticated users")
  , .create finalSelectPolicy
  , .create finalInsertPolicy
  , .create finalUpdatePolicy ]

/-- Run the final migration against a catalog of pre-existing policies. -/
def runFinalMigration (prior : List UsersPolicy) : List UsersPolicy :=
  fixRlsPoliciesAgain.foldl applyPolicyOp prior

/-- The users-table policies in force after all migrations when no stray
policy survives from before (the final migration drops every name it
knows about and creates exactly these three). -/
def usersPoliciesFinal : List UsersPolicy :=
  runFinalMigration []

/-- Permissive-policy evaluation of SELECT on a users row: readable iff
some SELECT policy has a USING expression accepting the row. -/
def rlsAllowsSelect (ps : List UsersPolicy) (ctx : AuthCtx) (row : UserRow) : Bool :=
  ps.any fun p =>
    p.cmd = .selectCmd &&
      (match p.usingExpr with
       | some e => evalPolicyExpr e ctx row
       | none => false)

/-- Permissive-policy evaluation of UPDATE: the existing row must pass
some UPDATE policy USING clause whose WITH CHECK accepts the new row. -/
def rlsAllowsUpdate (ps : List UsersPolicy) (ctx : AuthCtx) (row newRow : UserRow) : Bool :=
  ps.any fun p =>
    p.cmd = .updateCmd &&
      (match p.usingExpr with
       | some e => evalPolicyExpr e ctx row
       | none => false) &&
      (match p.checkExpr with
       | some e => evalPolicyExpr e ctx newRow
       | none => true)

/-- Permissive-policy evaluation of INSERT: the new row must pass some
INSERT policy WITH CHECK clause. -/
def rlsAllowsInsert (ps : List UsersPolicy) (ctx : AuthCtx) (newRow : UserRow) : Bool :=
  ps.any fun p =>
    p.cmd = .insertCmd &&
      (match p.checkExpr with
       | some e => evalPolicyExpr e ctx newRow
       | none => true)

/-! ## Client-visible database state

Tables are lists of rows.  Timestamps are naturals; prices are integers
(the claims only compare them).  A null text column is an Option. -/

/-- A row of the services table. -/
structure ServiceRow where
  id : Nat
  business_id : Nat
  name : String
  description : Option String
  duration : Int
  price : Int
  category : Option String
  is_active : Bool
deriving DecidableEq, Repr

/-- A row of the customers table. -/
structure CustomerRow where
  id : Nat
  business_id : Nat
  first_name : String
  last_name : String
  email : String
  phone : Option String
  notes : Option String
  tags : Option (List String)
  total_spent : Int
  last_visit : Option Nat
deriving DecidableEq, Repr

/-- A row of the bookings table. -/
structure BookingRow where
  id : Nat
  business_id : Nat
  customer_id : Nat
  service_id : Nat
  staff_id : Option Nat
  start_time : Nat
  end_time : Nat
  status : BookingStatus
  notes : Option String
deriving DecidableEq, Repr

/-- A row of the payments table (booking_id is UNIQUE NOT NULL in the
schema; the payments table has no business_id column). -/
structure PaymentRow where
  booking_id : Nat
  amount : Int
  status : PaymentStatus
deriving DecidableEq, Repr

/-- The tables the verified pages mutate. -/
structure DBState where
  bookings : List BookingRow
  customers : List CustomerRow
  services : List ServiceRow
  payments : List PaymentRow
deriving DecidableEq, Repr

/-! ## Bookings page (Bookings.tsx)

handleSubmit validates that a business id and the required form fields
are present, then on the create path (editingBooking = null) inserts the
booking row, updates the customer row last_visit, and, when the selected
service is found in the loaded list with price > 0, inserts a payment
row for the new booking.  On the edit path it only updates the booking
row.  The three calls of the create path are separate awaited requests;
the results of the customer update and the payment insert are not
checked. -/

/-- The Bookings form.  Select values are empty strings until chosen, so
the id fields are Options (none models the empty string, which fails the
required-fields check; staff may stay empty and becomes null). -/
structure BookingForm where
  customer_id : Option Nat
  service_id : Option Nat
  staff_id : Option Nat
  start_time : Option Nat
  end_time : Option Nat
  notes : String
  status : BookingStatus
deriving DecidableEq, Repr

/-- Bookings.tsx handleSubmit.  businessId is user.business_id; editing
is editingBooking brought down to its id; newBookingId is the id the
database generates for the inserted row; the services argument is the
services list the page loaded (business-scoped, is_active = true). -/
def bookingsHandleSubmit (businessId : Option Nat) (editing : Option Nat)
    (form : BookingForm) (services : List ServiceRow) (newBookingId : Nat)
    (db : DBState) : Except String DBState :=
  match businessId with
  | none => .error ("Business ID is missing")
  | some bid =>
    match form.customer_id, form.service_id, form.start_time, form.end_time with
    | some cid, some sid, some st, some et =>
      let bookingData : BookingRow :=
        { id := newBookingId
          business_id := bid
          customer_id := cid
          service_id := sid
          staff_id := form.staff_id
          start_time := st
          end_time := et
          status := form.status
          notes := if form.notes = "" then none else some form.notes }
      match editing with
      | some eid =>
        .ok { db with bookings := db.bookings.map fun b =>
                if b.id = eid then { bookingData with id := b.id } else b }
      | none =>
        let db1 := { db with bookings := db.bookings ++ [bookingData] }
        let db2 := { db1 with customers := db1.customers.map fun c =>
                       if c.id = cid then { c with last_visit := some st } else c }
        match services.find? (fun s => s.id = sid) with
        | some service =>
          if service.price > 0 then
            .ok { db2 with payments := db2.payments ++
                    [{ booking_id := newBookingId
                       amount := service.price
                       status := .pending }] }
          else .ok db2
        | none => .ok db2
    | _, _, _, _ => .error ("Please fill in all required fields")

/-- Bookings.tsx handleDelete: after the confirm dialog, one delete
request filtered on id; nothing else is sent. -/
def bookingsHandleDelete (confirmed : Bool) (bookingId : Nat) (db : DBState) : DBState :=
  if confirmed then
    { db with bookings := db.bookings.filter fun b => b.id ≠ bookingId }
  else db

/-- Bookings.tsx updateBookingStatus: one update request setting status,
filtered on id, with no precondition on the current status. -/
def updateBookingStatus (db : DBState) (bookingId : Nat) (newStatus : BookingStatus) : DBState :=
  { db with bookings := db.bookings.map fun b =>
      if b.id = bookingId then { b with status := newStatus } else b }

/-! ## Services page (Services.tsx) -/

/-- The Services form.  The numeric inputs are already coerced by the
page (parseInt / parseFloat with a 0 fallback). -/
structure ServiceForm where
  name : String
  description : String
  duration : Int
  price : Int
  category : String
  is_active : Bool
deriving DecidableEq, Repr

/-- Services.tsx handleSubmit: require a business id, reject price < 0
with the message Price cannot be negative, reject duration <= 0 with the
message Duration must be greater than 0, then update the edited row or
insert a fresh business-scoped row. -/
def servicesHandleSubmit (businessId : Option Nat) (editing : Option Nat)
    (form : ServiceForm) (newServiceId : Nat) (db : DBState) :
    Except String DBState :=
  match businessId with
  | none => .error ("Business ID is missing")
  | some bid =>
    if form.price < 0 then .error ("Price cannot be negative")
    else if form.duration ≤ 0 then .error ("Duration must be greater than 0")
    else
      match editing with
      | some sid =>
        .ok { db with services := db.services.map fun s =>
                if s.id = sid then
                  { s with
                    name := form.name
                    description := if form.description = "" then none else some form.description
                    duration := form.duration
                    price := form.price
                    category := if form.category = "" then none else some form.category
                    is_active := form.is_active }
                else s }
      | none =>
        .ok { db with services := db.services ++
                [{ id := newServiceId
                   business_id := bid
                   name := form.name
                   description := if form.description = "" then none else some form.description
                   duration := form.duration
                   price := form.price
                   category := if form.category = "" then none else some form.category
                   is_active := form.is_active }] }

/-- Services.tsx handleDelete: after the confirm dialog, one delete
request filtered on id. -/
def servicesHandleDelete (confirmed : Bool) (serviceId : Nat) (db : DBState) : DBState :=
  if confirmed then
    { db with services := db.services.filter fun s => s.id ≠ serviceId }
  else db

/-! ## Customers page (Customers.tsx) -/

/-- The Customers form. -/
structure CustomerForm where
  first_name : String
  last_name : String
  email : String
  phone : String
  notes : String
  tags : List String
deriving DecidableEq, Repr

/-- Customers.tsx handleSubmit: require a business id, then update the
edited row or insert a fresh business-scoped row (total_spent defaults
to 0 in the schema; tags become null when empty). -/
def customersHandleSubmit (businessId : Option Nat) (editing : Option Nat)
    (form : CustomerForm) (newCustomerId : Nat) (db : DBState) :
    Except String DBState :=
  match businessId with
  | none => .error ("Business ID is missing")
  | some bid =>
    match editing with
    | some cid =>
      .ok { db with customers := db.customers.map fun c =>
              if c.id = cid then
                { c with
                  first_name := form.first_name
                  last_name := form.last_name
                  email := form.email
                  phone := if form.phone = "" then none else some form.phone
                  notes := if form.notes = "" then none else some form.notes
                  tags := if form.tags.length > 0 then some form.tags else none }
              else c }
    | none =>
      .ok { db with customers := db.customers ++
              [{ id := newCustomerId
                 business_id := bid
                 first_name := form.first_name
                 last_name := form.last_name
                 email := form.email
                 phone := if form.phone = "" then none else some form.phone
                 notes := if form.notes = "" then none else some form.notes
                 tags := if form.tags.length > 0 then some form.tags else none
                 total_spent := 0
                 last_visit := none }] }

/-- Customers.tsx handleDelete: after the confirm dialog, one delete
request filtered on id. -/
def customersHandleDelete (confirmed : Bool) (customerId : Nat) (db : DBState) : DBState :=
  if confirmed then
    { db with customers := db.customers.filter fun c => c.id ≠ customerId }
  else db

/-! ## Staff invites and registration (Register.tsx, AuthContext.tsx)

staff_invites rows carry token (UNIQUE), used, expires_at and
business_id.  Register.tsx handleSubmit with an invite token re-queries
staff_invites filtered on token = t, used = false, expires_at > now; if
no row matches it throws Invalid or expired invite link and no signup
happens; otherwise it signs the user up as STAFF for invite.business_id
and updates the invite to used = true. -/

/-- A row of the staff_invites table. -/
structure StaffInviteRow where
  token : String
  business_id : Nat
  email : String
  used : Bool
  used_at : Option Nat
  expires_at : Nat
deriving DecidableEq, Repr

/-- The staff_invites query of Register.tsx handleSubmit:
.eq(token).eq(used, false).gt(expires_at, now).single().  The token
column is UNIQUE, so at most one row matches and find? models single(). -/
def findValidInvite (invites : List StaffInviteRow) (token : String) (now : Nat) :
    Option StaffInviteRow :=
  invites.find? fun i => i.token = token && i.used = false && decide (now < i.expires_at)

/-- The profile row built by AuthContext.tsx signUp: role as passed and
business_id := businessId || null. -/
def signUpProfileRow (uid : Nat) (email firstName lastName : String)
    (role : UserRole) (emailConfirmed : Bool) (businessId : Option Nat) : UserRow :=
  { id := uid
    email := email
    first_name := firstName
    last_name := lastName
    role := role
    email_verified := emailConfirmed
    business_id := businessId }

/-- The invite branch of Register.tsx handleSubmit: on success it yields
the STAFF profile row for the invite business and the staff_invites
table with the invite marked used = true, used_at = now. -/
def registerStaffSignup (invites : List StaffInviteRow) (token : String) (now : Nat)
    (uid : Nat) (email firstName lastName : String) (emailConfirmed : Bool) :
    Except String (UserRow × List StaffInviteRow) :=
  match findValidInvite invites token now with
  | none => .error ("Invalid or expired invite link")
  | some invite =>
    .ok ( signUpProfileRow uid email firstName lastName .staff emailConfirmed
            (some invite.business_id)
        , invites.map fun i =>
            if i.token = token then { i with used := true, used_at := some now } else i )

/-- The business-owner branch of Register.tsx handleSubmit: signUp with
role BUSINESS_OWNER and no businessId, so the profile row carries
business_id = null until business setup. -/
def registerOwnerSignup (uid : Nat) (email firstName lastName : String)
    (emailConfirmed : Bool) : UserRow :=
  signUpProfileRow uid email firstName lastName .businessOwner emailConfirmed none

/-! ## signUp retry and recovery (AuthContext.tsx)

After auth.signUp succeeds and no trigger-created profile is found,
signUp polls auth.getSession in a loop - while (attempts < 5 &&
!session) - sleeping between attempts, then falls back to creating the
profile manually; if that insert fails with the duplicate-key code
23505 it recovers by fetching the existing profile. -/

/-- The session polling loop of signUp.  trace n is what the n-th
getSession call returns; fuel is 5 - attempts.  The result is the pair
(number of getSession calls made, final session). -/
def sessionLoopGo (trace : Nat → Option Nat) :
    Nat → Nat → Option Nat → Nat × Option Nat
  | 0, attempts, session => (attempts, session)
  | _ + 1, attempts, some s => (attempts, some s)
  | fuel + 1, attempts, none => sessionLoopGo trace fuel (attempts + 1) (trace attempts)

/-- signUp session polling: attempts = 0, session = null, at most 5
getSession calls. -/
def signUpSessionLoop (trace : Nat → Option Nat) : Nat × Option Nat :=
  sessionLoopGo trace 5 0 none

/-- Errors a profile insert can report. -/
inductive InsertErr
  | duplicateKey
  | other (msg : String)
deriving DecidableEq, Repr

/-- The profile-acquisition tail of signUp (lines 259-342 of
AuthContext.tsx): use the trigger-created profile if present; otherwise,
without a session and without email confirmation fail asking for
verification; with a session create the profile manually, and on a
duplicate-key failure recover by re-fetching the profile. -/
def signUpAcquireProfile (existing : Option UserRow) (sessionEstablished : Bool)
    (emailConfirmed : Bool) (insertResult : Except InsertErr UserRow)
    (refetch : Option UserRow) : Except String UserRow :=
  match existing with
  | some p => .ok p
  | none =>
    if !sessionEstablished && !emailConfirmed then
      .error ("Please check your email to verify your account. Your profile will be created automatically after verification.")
    else if sessionEstablished then
      match insertResult with
      | .ok p => .ok p
      | .error .duplicateKey =>
        match refetch with
        | some p => .ok p
        | none => .error ("Profile creation failed. Please try signing in.")
      | .error (.other m) => .error ("Failed to create user profile: " ++ m)
    else
      .error ("Session not established. Please try signing in after verifying your email.")

/-! ## Concrete scenario data used by counterexamples and witnesses -/

/-- An authenticated owner of business 10. -/
def aliceRow : UserRow :=
  { id := 1, email := "alice@a.example", first_name := "Alice", last_name := "A"
    role := .businessOwner, email_verified := true, business_id := some 10 }

/-- An owner of a different business, business 20. -/
def bobRow : UserRow :=
  { id := 2, email := "bob@b.example", first_name := "Bob", last_name := "B"
    role := .businessOwner, email_verified := true, business_id := some 20 }

/-- A price-zero service of business 1. -/
def freeConsultService : ServiceRow :=
  { id := 5, business_id := 1, name := "Free consult", description := none
    duration := 30, price := 0, category := none, is_active := true }

/-- A customer of business 1. -/
def scenarioCustomer : CustomerRow :=
  { id := 3, business_id := 1, first_name := "Cara", last_name := "C"
    email := "cara@c.example", phone := none, notes := none, tags := none
    total_spent := 0, last_visit := none }

/-- A completed Bookings form selecting the price-zero service. -/
def freeConsultForm : BookingForm :=
  { customer_id := some 3, service_id := some 5, staff_id := none
    start_time := some 1000, end_time := some 1030, notes := "", status := .pending }

/-- The database state before the scenario booking is created. -/
def scenarioDb : DBState :=
  { bookings := [], customers := [scenarioCustomer]
    services := [freeConsultService], payments := [] }

/-- A getSession trace whose first call yields no session and whose
second call yields one. -/
def retryTrace : Nat → Option Nat :=
  fun n => if n = 0 then none else some 7

/-- A pre-existing confirmed booking of business 1 whose interval
990-1020 overlaps the scenario form interval 1000-1030 with the same
(absent) staff assignment. -/
def overlapBooking : BookingRow :=
  { id := 50, business_id := 1, customer_id := 3, service_id := 5
    staff_id := none, start_time := 990, end_time := 1020
    status := .confirmed, notes := none }

/-! # Theorems -/

/-! ## Lemmas about generateSlug -/

theorem mem_hyphenate {c : Char} {l : List Char} (h : c ∈ hyphenate l) :
    isSlugChar c = true ∨ c = '-' := by
  rcases List.mem_map.1 h with ⟨a, _, rfl⟩
  by_cases ha : isSlugChar a = true
  · exact Or.inl (by simp [ha])
  · exact Or.inr (by simp [ha])

theorem squeezeHyphens_subset : ∀ (l : List Char) (c : Char),
    c ∈ squeezeHyphens l → c ∈ l := by
  intro l
  induction l with
  | nil => intro c h; simp [squeezeHyphens] at h
  | cons a rest ih =>
    intro c h
    cases rest with
    | nil => simpa [squeezeHyphens] using h
    | cons b rest2 =>
      rw [squeezeHyphens] at h
      split at h
      · exact List.mem_cons_of_mem a (ih c h)
      · rcases List.mem_cons.1 h with rfl | h2
        · exact List.mem_cons_self c _
        · exact List.mem_cons_of_mem a (ih c h2)

theorem squeezeHyphens_head_hyphen : ∀ (l : List Char),
    (squeezeHyphens l).head? = some '-' ↔ l.head? = some '-' := by
  intro l
  induction l with
  | nil => simp [squeezeHyphens]
  | cons a rest ih =>
    cases rest with
    | nil => simp [squeezeHyphens]
    | cons b rest2 =>
      rw [squeezeHyphens]
      split
      · rename_i hcond
        simp only [Bool.and_eq_true, decide_eq_true_eq] at hcond
        rw [ih]
        simp [hcond.1, hcond.2]
      · simp

theorem squeezeHyphens_chain : ∀ (l : List Char),
    List.Chain' (fun x y => ¬(x = '-' ∧ y = '-')) (squeezeHyphens l) := by
  intro l
  induction l with
  | nil => simp [squeezeHyphens]
  | cons a rest ih =>
    cases rest with
    | nil => simp [squeezeHyphens]
    | cons b rest2 =>
      rw [squeezeHyphens]
      split
      · exact ih
      · rename_i hcond
        simp only [Bool.and_eq_true, decide_eq_true_eq, not_and] at hcond
        refine List.Chain'.cons' ih ?_
        intro y hy hcc
        obtain ⟨ha, hyh⟩ := hcc
        have hsome : (squeezeHyphens (b :: rest2)).head? = some '-' := by
          rw [Option.mem_def.mp hy]
          exact congrArg some hyh
        have hb : b = '-' := by
          have hh := (squeezeHyphens_head_hyphen (b :: rest2)).1 hsome
          simpa using hh
        exact hcond ha hb

theorem squeezeHyphens_of_chain : ∀ (l : List Char),
    List.Chain' (fun x y => ¬(x = '-' ∧ y = '-')) l → squeezeHyphens l = l := by
  intro l
  induction l with
  | nil => intro _; rfl
  | cons a rest ih =>
    intro h
    cases rest with
    | nil => rfl
    | cons b rest2 =>
      rw [squeezeHyphens]
      have hr := (List.chain'_cons.1 h).1
      have ht := (List.chain'_cons.1 h).2
      rw [if_neg (by simpa using hr), ih ht]

theorem stripLeadHyphen_eq_or (l : List Char) :
    stripLeadHyphen l = l ∨ stripLeadHyphen l = l.tail := by
  cases l with
  | nil => exact Or.inl rfl
  | cons c rest =>
    by_cases hc : c = '-'
    · exact Or.inr (by simp [stripLeadHyphen, hc])
    · exact Or.inl (by simp [stripLeadHyphen, hc])

theorem stripLeadHyphen_head (l : List Char)
    (h : List.Chain' (fun x y => ¬(x = '-' ∧ y = '-')) l) :
    (stripLeadHyphen l).head? ≠ some '-' := by
  cases l with
  | nil => simp [stripLeadHyphen]
  | cons c rest =>
    by_cases hc : c = '-'
    · subst hc
      rw [stripLeadHyphen, if_pos rfl]
      cases rest with
      | nil => simp
      | cons d rest2 =>
        have hr := (List.chain'_cons.1 h).1
        have hd : d ≠ '-' := fun hdh => hr ⟨rfl, hdh⟩
        simpa using hd
    · rw [stripLeadHyphen, if_neg hc]
      simpa using hc

theorem stripLeadHyphen_of_head (l : List Char) (h : l.head? ≠ some '-') :
    stripLeadHyphen l = l := by
  cases l with
  | nil => rfl
  | cons c rest =>
    have hc : c ≠ '-' := by simpa using h
    simp [stripLeadHyphen, hc]

theorem chain_hyphen_reverse (l : List Char)
    (h : List.Chain' (fun x y => ¬(x = '-' ∧ y = '-')) l) :
    List.Chain' (fun x y => ¬(x = '-' ∧ y = '-')) l.reverse := by
  rw [List.chain'_reverse]
  exact h.imp (fun a b hab ⟨h1, h2⟩ => hab ⟨h2, h1⟩)

theorem head?_dropLast_ne (l : List Char) (h : l.head? ≠ some '-') :
    (l.dropLast).head? ≠ some '-' := by
  cases l with
  | nil => simp
  | cons c rest =>
    cases rest with
    | nil => simp
    | cons d rest2 =>
      simpa using h

theorem lowerChar_fix {c : Char} (h : isSlugChar c = true ∨ c = '-') :
    lowerChar c = c := by
  rw [lowerChar]
  rcases h with h | rfl
  · simp only [isSlugChar, Bool.or_eq_true, Bool.and_eq_true, decide_eq_true_eq] at h
    rcases h with ⟨h1, h2⟩ | ⟨h1, h2⟩
    · rw [if_neg]
      simp only [Bool.and_eq_true, decide_eq_true_eq, not_and]
      intro _ hZ
      exact absurd (le_trans h1 hZ) (by decide)
    · rw [if_neg]
      simp only [Bool.and_eq_true, decide_eq_true_eq, not_and]
      intro hA _
      exact absurd (le_trans hA h2) (by decide)
  · rw [if_neg]
    simp only [Bool.and_eq_true, decide_eq_true_eq, not_and]
    intro hA _
    exact absurd hA (by decide)

theorem map_fix_of_mem {f : Char → Char} (l : List Char)
    (h : ∀ c ∈ l, f c = c) : l.map f = l := by
  rw [List.map_congr_left h]
  simp

theorem slugCore_facts (l0 : List Char) :
    (∀ c ∈ stripTrailHyphen (stripLeadHyphen (squeezeHyphens (hyphenate l0))),
        isSlugChar c = true ∨ c = '-') ∧
    List.Chain' (fun x y => ¬(x = '-' ∧ y = '-'))
      (stripTrailHyphen (stripLeadHyphen (squeezeHyphens (hyphenate l0)))) ∧
    (stripTrailHyphen (stripLeadHyphen (squeezeHyphens (hyphenate l0)))).head? ≠ some '-' ∧
    (stripTrailHyphen (stripLeadHyphen (squeezeHyphens (hyphenate l0)))).getLast? ≠ some '-' := by
  set m := squeezeHyphens (hyphenate l0) with hm
  have hchainm : List.Chain' (fun x y => ¬(x = '-' ∧ y = '-')) m := squeezeHyphens_chain _
  set l1 := stripLeadHyphen m with hl1
  have hchain1 : List.Chain' (fun x y => ¬(x = '-' ∧ y = '-')) l1 := by
    rcases stripLeadHyphen_eq_or m with he | he
    · rw [hl1, he]; exact hchainm
    · rw [hl1, he]; exact hchainm.tail
  have hhead1 : l1.head? ≠ some '-' := stripLeadHyphen_head m hchainm
  have hsub1 : ∀ c ∈ l1, c ∈ m := by
    rcases stripLeadHyphen_eq_or m with he | he
    · rw [hl1, he]; exact fun c hc => hc
    · rw [hl1, he]; exact fun c hc => List.mem_of_mem_tail hc
  set t := stripTrailHyphen l1 with htdef
  have hchain1r : List.Chain' (fun x y => ¬(x = '-' ∧ y = '-')) l1.reverse :=
    chain_hyphen_reverse _ hchain1
  have hlast : t.getLast? ≠ some '-' := by
    rw [htdef, stripTrailHyphen, List.getLast?_reverse]
    exact stripLeadHyphen_head _ hchain1r
  have htcases : t = l1 ∨ t = l1.dropLast := by
    rcases stripLeadHyphen_eq_or l1.reverse with he | he
    · left; rw [htdef, stripTrailHyphen, he, List.reverse_reverse]
    · right; rw [htdef, stripTrailHyphen, he, List.tail_reverse, List.reverse_reverse]
  have hheadt : t.head? ≠ some '-' := by
    rcases htcases with he | he
    · rw [he]; exact hhead1
    · rw [he]; exact head?_dropLast_ne l1 hhead1
  have hchaint : List.Chain' (fun x y => ¬(x = '-' ∧ y = '-')) t := by
    rcases htcases with he | he
    · rw [he]; exact hchain1
    · rw [he]; exact hchain1.init
  have hsubt : ∀ c ∈ t, isSlugChar c = true ∨ c = '-' := by
    intro c hc
    have hcl1 : c ∈ l1 := by
      rcases htcases with he | he
      · rw [he] at hc; exact hc
      · rw [he] at hc; exact List.dropLast_subset l1 hc
    exact mem_hyphenate (squeezeHyphens_subset _ c (hsub1 c hcl1))
  exact ⟨hsubt, hchaint, hheadt, hlast⟩

theorem generateSlug_fix (t : List Char)
    (hsubt : ∀ c ∈ t, isSlugChar c = true ∨ c = '-')
    (hchaint : List.Chain' (fun x y => ¬(x = '-' ∧ y = '-')) t)
    (hheadt : t.head? ≠ some '-')
    (hlast : t.getLast? ≠ some '-') :
    generateSlug (String.mk t) = String.mk t := by
  have hmap : t.map lowerChar = t :=
    map_fix_of_mem t (fun c hc => lowerChar_fix (hsubt c hc))
  have hhyph : hyphenate t = t := by
    apply map_fix_of_mem
    intro c hc
    by_cases hs : isSlugChar c = true
    · simp [hs]
    · rcases hsubt c hc with h1 | h1
      · exact absurd h1 hs
      · simp [hs, h1]
  have hsq : squeezeHyphens t = t := squeezeHyphens_of_chain t hchaint
  have hsl : stripLeadHyphen t = t := stripLeadHyphen_of_head t hheadt
  have hst : stripTrailHyphen t = t := by
    rw [stripTrailHyphen, stripLeadHyphen_of_head, List.reverse_reverse]
    rw [List.head?_reverse]
    exact hlast
  show String.mk (stripTrailHyphen (stripLeadHyphen
    (squeezeHyphens (hyphenate ((String.mk t).data.map lowerChar))))) = String.mk t
  rw [show (String.mk t).data = t from rfl, hmap, hhyph, hsq, hsl, hst]

/-- C10: for every input string, generateSlug produces only lowercase
ASCII letters, digits and hyphens, with no two adjacent hyphens and no
leading or trailing hyphen, and generateSlug is idempotent:
generateSlug (generateSlug s) = generateSlug s. -/
theorem generateSlug_sound (s : String) :
    (∀ c ∈ (generateSlug s).data, isSlugChar c = true ∨ c = '-') ∧
    List.Chain' (fun x y => ¬(x = '-' ∧ y = '-')) (generateSlug s).data ∧
    (generateSlug s).data.head? ≠ some '-' ∧
    (generateSlug s).data.getLast? ≠ some '-' ∧
    generateSlug (generateSlug s) = generateSlug s := by
  have hf := slugCore_facts (s.data.map lowerChar)
  have hdata : (generateSlug s).data =
      stripTrailHyphen (stripLeadHyphen (squeezeHyphens (hyphenate (s.data.map lowerChar)))) := rfl
  refine ⟨by rw [hdata]; exact hf.1, by rw [hdata]; exact hf.2.1,
    by rw [hdata]; exact hf.2.2.1, by rw [hdata]; exact hf.2.2.2, ?_⟩
  have hfix := generateSlug_fix (generateSlug s).data
    (by rw [hdata]; exact hf.1) (by rw [hdata]; exact hf.2.1)
    (by rw [hdata]; exact hf.2.2.1) (by rw [hdata]; exact hf.2.2.2)
  exact hfix

/-- C10 witness: the claim theorem evaluated at the concrete input
"My Biz", whose slug is my-biz. -/
theorem generateSlug_sound_witness :
    generateSlug (generateSlug (String.mk ['M', 'y', ' ', 'B', 'i', 'z'])) =
      generateSlug (String.mk ['M', 'y', ' ', 'B', 'i', 'z']) :=
  (generateSlug_sound (String.mk ['M', 'y', ' ', 'B', 'i', 'z'])).2.2.2.2

/-! ## C1: tenant isolation of the RLS policies -/

/-- C1 counterexample: after all migrations the users-table SELECT
policy created by 20251103112302_fix_rls_policies_again.sql accepts any
authenticated caller, so the authenticated owner of business 10 (alice)
can read the users row of the owner of business 20 (bob), although the
two rows reference different businesses.  The claim that the policies in
force never grant a user of business A access to a row of business B is
therefore false. -/
theorem rls_cross_tenant_read :
    aliceRow.business_id = some 10 ∧ bobRow.business_id = some 20 ∧
    rlsAllowsSelect usersPoliciesFinal { uid := some 1 } bobRow = true := by
  refine ⟨rfl, rfl, ?_⟩
  decide

/-- C1 amended: the users-table policies in force after the final
migration restrict INSERT and UPDATE to the caller's own row
(auth.uid() = id), but grant SELECT to every authenticated caller
regardless of business, so cross-business reads of users rows are
allowed; moreover the SELECT policy survives the final migration
whatever policies existed before it, and permissive evaluation makes
the access it grants irrevocable by other policies. -/
theorem rls_final_policies_characterization :
    ∀ (prior : List UsersPolicy) (ctx : AuthCtx) (row newRow : UserRow),
      finalSelectPolicy ∈ runFinalMigration prior ∧
      rlsAllowsSelect usersPoliciesFinal ctx row = ctx.uid.isSome ∧
      rlsAllowsUpdate usersPoliciesFinal ctx row newRow =
        (decide (ctx.uid = some row.id) && decide (ctx.uid = some newRow.id)) ∧
      rlsAllowsInsert usersPoliciesFinal ctx newRow = decide (ctx.uid = some newRow.id) ∧
      (finalSelectPolicy ∈ runFinalMigration prior →
        rlsAllowsSelect (runFinalMigration prior) ctx row = true ∨ ctx.uid = none) := by
  intro prior ctx row newRow
  refine ⟨?_, ?_, ?_, ?_, ?_⟩
  · simp [runFinalMigration, fixRlsPoliciesAgain, applyPolicyOp]
  · cases h : ctx.uid <;>
      simp [usersPoliciesFinal, runFinalMigration, fixRlsPoliciesAgain, applyPolicyOp,
        rlsAllowsSelect, finalSelectPolicy, finalInsertPolicy, finalUpdatePolicy,
        evalPolicyExpr, h]
  · cases h : ctx.uid <;>
      simp [usersPoliciesFinal, runFinalMigration, fixRlsPoliciesAgain, applyPolicyOp,
        rlsAllowsUpdate, finalSelectPolicy, finalInsertPolicy, finalUpdatePolicy,
        evalPolicyExpr, h]
  · cases h : ctx.uid <;>
      simp [usersPoliciesFinal, runFinalMigration, fixRlsPoliciesAgain, applyPolicyOp,
        rlsAllowsInsert, finalSelectPolicy, finalInsertPolicy, finalUpdatePolicy,
        evalPolicyExpr, h]
  · intro hmem
    cases h : ctx.uid with
    | none => exact Or.inr rfl
    | some u =>
      left
      rw [rlsAllowsSelect, List.any_eq_true]
      exact ⟨finalSelectPolicy, hmem, by simp [finalSelectPolicy, evalPolicyExpr, h]⟩

/-- C1 amended witness: the characterization applied at the crossing
scenario, confirming that an authenticated caller may read a foreign
users row while updating it stays forbidden. -/
theorem rls_final_policies_characterization_witness :
    rlsAllowsSelect usersPoliciesFinal { uid := some 1 } bobRow = true ∧
    rlsAllowsUpdate usersPoliciesFinal { uid := some 1 } bobRow bobRow = false := by
  have h := rls_final_policies_characterization [] { uid := some 1 } bobRow bobRow
  refine ⟨?_, ?_⟩
  · rw [h.2.1]; rfl
  · rw [h.2.2.1]; decide

/-! ## C2: booking creation and its dependent effects -/

/-- C2 counterexample: submitting the Bookings form for the price-zero
service succeeds and creates the booking, but no payment record is ever
created (Bookings.tsx only inserts a payment when service.price > 0), so
a state in which a booking exists without its payment record is
reachable, and the three effects are not an atomic unit. -/
theorem booking_without_payment_reachable :
    (bookingsHandleSubmit (some 1) none freeConsultForm [freeConsultService] 100
        scenarioDb).map (fun s => (s.bookings.length, s.payments.length)) =
      .ok (1, 0) := by
  rfl

/-- C2 amended: booking creation issues three separate sequential calls,
not one atomic transaction: it appends the booking row, sets the
selected customer's last_visit to the booking start time, and appends a
payment row for the new booking carrying the service price only when the
selected service is found in the loaded list with price > 0; otherwise
the payments table is untouched and the booking exists without a payment
record. -/
theorem booking_create_effects :
    ∀ (bid : Nat) (form : BookingForm) (services : List ServiceRow)
      (newId : Nat) (db : DBState) (cid sid st et : Nat),
      form.customer_id = some cid → form.service_id = some sid →
      form.start_time = some st → form.end_time = some et →
      ∃ s, bookingsHandleSubmit (some bid) none form services newId db = .ok s ∧
        s.bookings = db.bookings ++
          [{ id := newId, business_id := bid, customer_id := cid, service_id := sid
             staff_id := form.staff_id, start_time := st, end_time := et
             status := form.status
             notes := if form.notes = "" then none else some form.notes }] ∧
        s.customers = db.customers.map
          (fun c => if c.id = cid then { c with last_visit := some st } else c) ∧
        s.services = db.services ∧
        ((∃ sv, services.find? (fun x => x.id = sid) = some sv ∧ sv.price > 0 ∧
            s.payments = db.payments ++
              [{ booking_id := newId, amount := sv.price, status := .pending }]) ∨
         ((∀ sv, services.find? (fun x => x.id = sid) = some sv → sv.price ≤ 0) ∧
            s.payments = db.payments)) := by
  intro bid form services newId db cid sid st et hc hs hst het
  cases hfind : services.find? (fun x => x.id = sid) with
  | none =>
    simp only [bookingsHandleSubmit, hc, hs, hst, het, hfind]
    refine ⟨_, rfl, rfl, rfl, rfl, Or.inr ⟨?_, rfl⟩⟩
    intro sv hsv
    exact absurd hsv (by simp)
  | some sv =>
    by_cases hp : sv.price > 0
    · simp only [bookingsHandleSubmit, hc, hs, hst, het, hfind, if_pos hp]
      refine ⟨_, rfl, rfl, rfl, rfl, Or.inl ⟨sv, rfl, hp, rfl⟩⟩
    · simp only [bookingsHandleSubmit, hc, hs, hst, het, hfind, if_neg hp]
      refine ⟨_, rfl, rfl, rfl, rfl, Or.inr ⟨?_, rfl⟩⟩
      intro sv2 hsv2
      have he : sv = sv2 := Option.some.inj hsv2
      rw [← he]
      omega

/-- C2 amended witness: the effect characterization applied to the
price-zero scenario. -/
theorem booking_create_effects_witness :
    ∃ s, bookingsHandleSubmit (some 1) none freeConsultForm [freeConsultService] 100
        scenarioDb = .ok s ∧
      s.bookings = scenarioDb.bookings ++
        [{ id := 100, business_id := 1, customer_id := 3, service_id := 5
           staff_id := none, start_time := 1000, end_time := 1030
           status := .pending, notes := none }] ∧
      s.customers = scenarioDb.customers.map
        (fun c => if c.id = 3 then { c with last_visit := some 1000 } else c) ∧
      s.services = scenarioDb.services ∧
      ((∃ sv, [freeConsultService].find? (fun x => x.id = 5) = some sv ∧ sv.price > 0 ∧
          s.payments = scenarioDb.payments ++
            [{ booking_id := 100, amount := sv.price, status := .pending }]) ∨
       ((∀ sv, [freeConsultService].find? (fun x => x.id = 5) = some sv → sv.price ≤ 0) ∧
          s.payments = scenarioDb.payments)) := by
  have h := booking_create_effects 1 freeConsultForm [freeConsultService] 100
    scenarioDb 3 5 1000 1030 rfl rfl rfl rfl
  simpa [freeConsultForm] using h

/-! ## C3: status updates enforce no transition graph -/

/-- C3: updateBookingStatus sets the booking with the given id to the
target status whatever its current status is - every pair (current,
target) is an allowed transition - and leaves every other booking and
every other table untouched. -/
theorem updateBookingStatus_unconstrained :
    ∀ (db : DBState) (b : BookingRow) (current target : BookingStatus),
      b ∈ db.bookings → b.status = current →
      ({ b with status := target } ∈ (updateBookingStatus db b.id target).bookings ∧
       (∀ b2 ∈ db.bookings, b2.id ≠ b.id →
          b2 ∈ (updateBookingStatus db b.id target).bookings) ∧
       (updateBookingStatus db b.id target).customers = db.customers ∧
       (updateBookingStatus db b.id target).services = db.services ∧
       (updateBookingStatus db b.id target).payments = db.payments) := by
  intro db b current target hb _
  refine ⟨?_, ?_, rfl, rfl, rfl⟩
  · exact List.mem_map.mpr ⟨b, hb, by simp⟩
  · intro b2 hb2 hne
    exact List.mem_map.mpr ⟨b2, hb2, by simp [hne]⟩

/-- C3 witness: a cancelled booking is set straight to completed. -/
theorem updateBookingStatus_unconstrained_witness :
    ({ id := 100, business_id := 1, customer_id := 3, service_id := 5
       staff_id := none, start_time := 1000, end_time := 1030
       status := BookingStatus.completed, notes := none } : BookingRow) ∈
      (updateBookingStatus
        { bookings := [{ id := 100, business_id := 1, customer_id := 3, service_id := 5
                         staff_id := none, start_time := 1000, end_time := 1030
                         status := BookingStatus.cancelled, notes := none }]
          customers := [], services := [], payments := [] }
        100 BookingStatus.completed).bookings :=
  (updateBookingStatus_unconstrained
    { bookings := [{ id := 100, business_id := 1, customer_id := 3, service_id := 5
                     staff_id := none, start_time := 1000, end_time := 1030
                     status := BookingStatus.cancelled, notes := none }]
      customers := [], services := [], payments := [] }
    { id := 100, business_id := 1, customer_id := 3, service_id := 5
      staff_id := none, start_time := 1000, end_time := 1030
      status := BookingStatus.cancelled, notes := none }
    BookingStatus.cancelled BookingStatus.completed
    (List.mem_singleton.mpr rfl) rfl).1

/-! ## C4: booking creation performs no conflict detection -/

/-- C4: the create path of Bookings.tsx handleSubmit never consults the
existing bookings: for any list of pre-existing bookings - including
ones that overlap the new interval or share the staff member - the
outcome is exactly the outcome over an empty bookings table with the
pre-existing rows put back in front, so a conflicting booking is
inserted exactly as when no conflict exists. -/
theorem booking_create_ignores_existing :
    ∀ (businessId : Option Nat) (form : BookingForm) (services : List ServiceRow)
      (newId : Nat) (bk : List BookingRow) (cs : List CustomerRow)
      (sv : List ServiceRow) (pm : List PaymentRow),
      bookingsHandleSubmit businessId none form services newId
          { bookings := bk, customers := cs, services := sv, payments := pm } =
        (bookingsHandleSubmit businessId none form services newId
            { bookings := [], customers := cs, services := sv, payments := pm }).map
          (fun s => { s with bookings := bk ++ s.bookings }) := by
  intro businessId form services newId bk cs sv pm
  cases businessId with
  | none => rfl
  | some bid =>
    cases hc : form.customer_id with
    | none => simp [bookingsHandleSubmit, hc, Except.map]
    | some cid =>
      cases hs : form.service_id with
      | none => simp [bookingsHandleSubmit, hc, hs, Except.map]
      | some sid =>
        cases hst : form.start_time with
        | none => simp [bookingsHandleSubmit, hc, hs, hst, Except.map]
        | some st =>
          cases het : form.end_time with
          | none => simp [bookingsHandleSubmit, hc, hs, hst, het, Except.map]
          | some et =>
            cases hfind : services.find? (fun x => x.id = sid) with
            | none => simp [bookingsHandleSubmit, hc, hs, hst, het, hfind, Except.map]
            | some service =>
              by_cases hp : service.price > 0
              · simp [bookingsHandleSubmit, hc, hs, hst, het, hfind, if_pos hp, Except.map]
              · simp [bookingsHandleSubmit, hc, hs, hst, het, hfind, if_neg hp, Except.map]

/-- C4 witness: creating the scenario booking over a table already
holding an overlapping same-staff booking gives exactly the no-conflict
result with the old row put back in front. -/
theorem booking_create_ignores_existing_witness :
    bookingsHandleSubmit (some 1) none freeConsultForm [freeConsultService] 100
        { bookings := [overlapBooking], customers := [scenarioCustomer]
          services := [freeConsultService], payments := [] } =
      (bookingsHandleSubmit (some 1) none freeConsultForm [freeConsultService] 100
          { bookings := [], customers := [scenarioCustomer]
            services := [freeConsultService], payments := [] }).map
        (fun s => { s with bookings := [overlapBooking] ++ s.bookings }) :=
  booking_create_ignores_existing (some 1) freeConsultForm [freeConsultService] 100
    [overlapBooking] [scenarioCustomer] [freeConsultService] []

/-! ## C5: business-reference invariants -/

/-- C5 counterexample: the business-owner signup path of Register.tsx
calls signUp without a businessId, so the users row it creates carries
business_id = null - a reachable non-Business row that does not
reference exactly one business.  (users.business_id is nullable in the
schema: uuid REFERENCES businesses(id) ON DELETE SET NULL.) -/
theorem owner_signup_row_without_business :
    (registerOwnerSignup 7 ("owner@example.com") ("Oli") ("Owner") false).business_id
        = none ∧
    (registerOwnerSignup 7 ("owner@example.com") ("Oli") ("Owner") false).role
        = UserRole.businessOwner := by
  exact ⟨rfl, rfl⟩

/-- C5 amended: rows the client inserts into services, customers and
bookings always carry the submitting user's business id, and a payment
row inserted by booking creation references exactly the new booking; but
a users row may carry no business reference - owner signup creates the
profile with business_id = null until business setup - so the every-
non-Business-row part holds for the business-scoped tables, not for
users. -/
theorem client_inserts_business_scoped :
    ∀ (bid : Nat) (db : DBState),
      (∀ (form : BookingForm) (services : List ServiceRow) (newId : Nat) (s : DBState),
        bookingsHandleSubmit (some bid) none form services newId db = .ok s →
          (∀ b ∈ s.bookings, b ∈ db.bookings ∨ (b.business_id = bid ∧ b.id = newId)) ∧
          (∀ p ∈ s.payments, p ∈ db.payments ∨ p.booking_id = newId)) ∧
      (∀ (form : ServiceForm) (newId : Nat) (s : DBState),
        servicesHandleSubmit (some bid) none form newId db = .ok s →
          ∀ r ∈ s.services, r ∈ db.services ∨ (r.business_id = bid ∧ r.id = newId)) ∧
      (∀ (form : CustomerForm) (newId : Nat) (s : DBState),
        customersHandleSubmit (some bid) none form newId db = .ok s →
          ∀ r ∈ s.customers, r ∈ db.customers ∨ (r.business_id = bid ∧ r.id = newId)) := by
  intro bid db
  refine ⟨?_, ?_, ?_⟩
  · intro form services newId s hok
    cases hc : form.customer_id with
    | none => rw [bookingsHandleSubmit] at hok; rw [hc] at hok; exact absurd hok (by simp)
    | some cid =>
      cases hs : form.service_id with
      | none => rw [bookingsHandleSubmit] at hok; rw [hc, hs] at hok; exact absurd hok (by simp)
      | some sid =>
        cases hst : form.start_time with
        | none =>
          rw [bookingsHandleSubmit] at hok; rw [hc, hs, hst] at hok
          exact absurd hok (by simp)
        | some st =>
          cases het : form.end_time with
          | none =>
            rw [bookingsHandleSubmit] at hok; rw [hc, hs, hst, het] at hok
            exact absurd hok (by simp)
          | some et =>
            have heff := booking_create_effects bid form services newId db cid sid st et
              hc hs hst het
            obtain ⟨s2, hs2, hbk, _, _, hpay⟩ := heff
            rw [hok] at hs2
            have hss : s = s2 := by
              injection hs2 with he
            subst hss
            constructor
            · intro b hbmem
              rw [hbk] at hbmem
              rcases List.mem_append.1 hbmem with hmem | hmem
              · exact Or.inl hmem
              · right
                have hbeq := List.mem_singleton.1 hmem
                rw [hbeq]
                exact ⟨rfl, rfl⟩
            · intro p hpmem
              rcases hpay with ⟨sv, _, _, hpays⟩ | ⟨_, hpays⟩
              · rw [hpays] at hpmem
                rcases List.mem_append.1 hpmem with hmem | hmem
                · exact Or.inl hmem
                · right
                  have hpeq := List.mem_singleton.1 hmem
                  rw [hpeq]
              · rw [hpays] at hpmem
                exact Or.inl hpmem
  · intro form newId s hok
    rw [servicesHandleSubmit] at hok
    by_cases hp : form.price < 0
    · rw [if_pos hp] at hok; exact absurd hok (by simp)
    · rw [if_neg hp] at hok
      by_cases hd : form.duration ≤ 0
      · rw [if_pos hd] at hok; exact absurd hok (by simp)
      · rw [if_neg hd] at hok
        have hss := (Except.ok.injEq _ _).mp hok.symm
        intro r hr
        rw [hss] at hr
        rcases List.mem_append.1 hr with hmem | hmem
        · exact Or.inl hmem
        · right
          have hre := List.mem_singleton.1 hmem
          rw [hre]
          exact ⟨rfl, rfl⟩
  · intro form newId s hok
    rw [customersHandleSubmit] at hok
    have hss := (Except.ok.injEq _ _).mp hok.symm
    intro r hr
    rw [hss] at hr
    rcases List.mem_append.1 hr with hmem | hmem
    · exact Or.inl hmem
    · right
      have hre := List.mem_singleton.1 hmem
      rw [hre]
      exact ⟨rfl, rfl⟩

/-- C5 amended witness: the insert characterization applied to the
concrete scenario with a positive-price service. -/
theorem client_inserts_business_scoped_witness :
    ∀ b ∈ (servicesHandleSubmit (some 1) none
        { name := "Cut", description := "", duration := 30, price := 40
          category := "", is_active := true } 9 scenarioDb).toOption.elim [] DBState.services,
      b ∈ scenarioDb.services ∨ (b.business_id = 1 ∧ b.id = 9) := by
  intro b hb
  have h := (client_inserts_business_scoped 1 scenarioDb).2.1
    { name := "Cut", description := "", duration := 30, price := 40
      category := "", is_active := true } 9
  exact h _ rfl b hb

/-! ## C6: deletion is a single immediate row removal -/

/-- C6: for each of the Bookings, Services and Customers pages, a
confirmed delete removes exactly the rows with the given id from its own
table - the surviving rows are unchanged, no soft-delete flag is written
- and the client touches no other table; an unconfirmed dialog issues no
mutation at all.  (Database-side foreign-key ON DELETE rules are outside
the client and outside this statement.) -/
theorem handleDelete_exact :
    ∀ (db : DBState) (rid : Nat),
      ((∀ b, b ∈ (bookingsHandleDelete true rid db).bookings ↔
          b ∈ db.bookings ∧ b.id ≠ rid) ∧
       (bookingsHandleDelete true rid db).customers = db.customers ∧
       (bookingsHandleDelete true rid db).services = db.services ∧
       (bookingsHandleDelete true rid db).payments = db.payments) ∧
      ((∀ r, r ∈ (servicesHandleDelete true rid db).services ↔
          r ∈ db.services ∧ r.id ≠ rid) ∧
       (servicesHandleDelete true rid db).bookings = db.bookings ∧
       (servicesHandleDelete true rid db).customers = db.customers ∧
       (servicesHandleDelete true rid db).payments = db.payments) ∧
      ((∀ r, r ∈ (customersHandleDelete true rid db).customers ↔
          r ∈ db.customers ∧ r.id ≠ rid) ∧
       (customersHandleDelete true rid db).bookings = db.bookings ∧
       (customersHandleDelete true rid db).services = db.services ∧
       (customersHandleDelete true rid db).payments = db.payments) ∧
      bookingsHandleDelete false rid db = db ∧
      servicesHandleDelete false rid db = db ∧
      customersHandleDelete false rid db = db := by
  intro db rid
  refine ⟨⟨?_, rfl, rfl, rfl⟩, ⟨?_, rfl, rfl, rfl⟩, ⟨?_, rfl, rfl, rfl⟩, rfl, rfl, rfl⟩
  · intro b
    simp [bookingsHandleDelete, List.mem_filter]
  · intro r
    simp [servicesHandleDelete, List.mem_filter]
  · intro r
    simp [customersHandleDelete, List.mem_filter]

/-- C6 witness: the deletion description applied at the concrete
scenario state - the unconfirmed dialog leaves the state untouched. -/
theorem handleDelete_exact_witness :
    bookingsHandleDelete false 5 scenarioDb = scenarioDb :=
  (handleDelete_exact scenarioDb 5).2.2.2.1

/-! ## C7: retry, recovery and fallback in the client -/

/-- C7 counterexample: in signUp the getSession polling loop makes a
second call after the first returns no session - a failed call is
re-attempted - and a duplicate-key failure of the manual profile insert
is recovered by re-fetching the existing profile, completing the
operation by other means.  Both contradict the claim that no retry and
no fallback path exists. -/
theorem signup_retries_and_recovers :
    (signUpSessionLoop retryTrace).1 = 2 ∧ retryTrace 0 = none ∧
    signUpAcquireProfile none true false (.error .duplicateKey)
        (some (registerOwnerSignup 7 ("owner@example.com") ("Oli") ("Owner") false)) =
      .ok (registerOwnerSignup 7 ("owner@example.com") ("Oli") ("Owner") false) := by
  exact ⟨rfl, rfl, rfl⟩

/-- C7 amended: errors are surfaced as inline messages and the CRUD
pages issue single requests, but signUp is an exception: it polls
getSession up to 5 times, re-calling only while the previous call
returned no session, and it recovers from a duplicate-key profile-insert
failure by re-fetching the profile, while any other insert failure is
surfaced as an inline error without retry. -/
theorem signup_retry_characterization :
    (∀ trace, (signUpSessionLoop trace).1 ≤ 5) ∧
    (∀ trace i, i + 1 < (signUpSessionLoop trace).1 → trace i = none) ∧
    (∀ (p : UserRow) (emailConfirmed : Bool),
      signUpAcquireProfile none true emailConfirmed (.error .duplicateKey) (some p) =
        .ok p) ∧
    (∀ (m : String) (emailConfirmed : Bool) (refetch : Option UserRow),
      signUpAcquireProfile none true emailConfirmed (.error (.other m)) refetch =
        .error ("Failed to create user profile: " ++ m)) := by
  refine ⟨?_, ?_, ?_, ?_⟩
  · intro trace
    have hgo : ∀ (fuel a : Nat) (s : Option Nat),
        (sessionLoopGo trace fuel a s).1 ≤ a + fuel := by
      intro fuel
      induction fuel with
      | zero => intro a s; simp [sessionLoopGo]
      | succ n ih =>
        intro a s
        cases s with
        | some v => simp [sessionLoopGo]
        | none =>
          have h := ih (a + 1) (trace a)
          rw [sessionLoopGo]
          omega
    simpa using hgo 5 0 none
  · intro trace i
    have hgo : ∀ (fuel a : Nat), a ≤ i →
        i + 1 < (sessionLoopGo trace fuel a none).1 → trace i = none := by
      intro fuel
      induction fuel with
      | zero =>
        intro a hai hlt
        rw [sessionLoopGo] at hlt
        omega
      | succ n ih =>
        intro a hai hlt
        rw [sessionLoopGo] at hlt
        cases htr : trace a with
        | none =>
          rw [htr] at hlt
          rcases Nat.lt_or_ge i (a + 1) with hia | hia
          · have hieq : i = a := by omega
            rw [hieq]
            exact htr
          · exact ih (a + 1) hia hlt
        | some v =>
          rw [htr] at hlt
          have hfst : (sessionLoopGo trace n (a + 1) (some v)).1 = a + 1 := by
            cases n <;> rfl
          rw [hfst] at hlt
          exact absurd hlt (by omega)
    intro hlt
    exact hgo 5 0 (Nat.zero_le i) hlt
  · intro p emailConfirmed
    cases emailConfirmed <;> rfl
  · intro m emailConfirmed refetch
    cases emailConfirmed <;> rfl

/-- C7 amended witness: the characterization applied at the concrete
retry trace and duplicate-key recovery input. -/
theorem signup_retry_characterization_witness :
    (signUpSessionLoop retryTrace).1 ≤ 5 ∧ retryTrace 0 = none ∧
    signUpAcquireProfile none true true (.error .duplicateKey) (some aliceRow) =
      .ok aliceRow := by
  refine ⟨signup_retry_characterization.1 retryTrace, ?_, ?_⟩
  · have h := signup_retry_characterization.2.1 retryTrace 0
    exact h (by decide)
  · exact signup_retry_characterization.2.2.1 aliceRow true

/-! ## C8: numeric validation of the Services form -/

/-- C8: with the submitting user attached to a business, Services.tsx
handleSubmit rejects price < 0 with the inline message Price cannot be
negative and duration <= 0 with Duration must be greater than 0, in that
order, performing no insert or update (an error carries no new state);
when price >= 0 and duration > 0 both validations pass and the write is
attempted, succeeding in the model. -/
theorem service_form_validation :
    ∀ (bid : Nat) (editing : Option Nat) (form : ServiceForm) (newId : Nat)
      (db : DBState),
      (form.price < 0 →
        servicesHandleSubmit (some bid) editing form newId db =
          .error ("Price cannot be negative")) ∧
      (0 ≤ form.price → form.duration ≤ 0 →
        servicesHandleSubmit (some bid) editing form newId db =
          .error ("Duration must be greater than 0")) ∧
      (0 ≤ form.price → 0 < form.duration →
        (servicesHandleSubmit (some bid) editing form newId db).isOk = true) := by
  intro bid editing form newId db
  refine ⟨?_, ?_, ?_⟩
  · intro hp
    simp only [servicesHandleSubmit]
    rw [if_pos hp]
  · intro hp hd
    simp only [servicesHandleSubmit]
    rw [if_neg (by omega), if_pos hd]
  · intro hp hd
    simp only [servicesHandleSubmit]
    rw [if_neg (by omega), if_neg (by omega)]
    cases editing <;> rfl

/-- C8 witness: the validation applied at concrete forms - a negative
price is rejected, a zero duration is rejected, and a valid form passes. -/
theorem service_form_validation_witness :
    servicesHandleSubmit (some 1) none
        { name := "Cut", description := "", duration := 30, price := -5
          category := "", is_active := true } 9 scenarioDb =
      .error ("Price cannot be negative") ∧
    servicesHandleSubmit (some 1) none
        { name := "Cut", description := "", duration := 0, price := 10
          category := "", is_active := true } 9 scenarioDb =
      .error ("Duration must be greater than 0") ∧
    (servicesHandleSubmit (some 1) none
        { name := "Cut", description := "", duration := 30, price := 10
          category := "", is_active := true } 9 scenarioDb).isOk = true := by
  refine ⟨?_, ?_, ?_⟩
  · exact (service_form_validation 1 none
      { name := "Cut", description := "", duration := 30, price := -5
        category := "", is_active := true } 9 scenarioDb).1 (by decide)
  · exact (service_form_validation 1 none
      { name := "Cut", description := "", duration := 0, price := 10
        category := "", is_active := true } 9 scenarioDb).2.1 (by decide) (by decide)
  · exact (service_form_validation 1 none
      { name := "Cut", description := "", duration := 30, price := 10
        category := "", is_active := true } 9 scenarioDb).2.2 (by decide) (by decide)

/-! ## C9: staff-invite acceptance -/

/-- C9: the invite branch of Register.tsx handleSubmit succeeds only
when an invite with the given token exists that is unused and expires
strictly after the present check time; on success the signup is a STAFF
profile for the invite business and every invite with that token is
marked used; when every invite with the token is used or expired the
branch fails with Invalid or expired invite link and produces no signup,
so a used or expired invite never grants a staff signup. -/
theorem staff_invite_acceptance :
    ∀ (invites : List StaffInviteRow) (token : String) (now uid : Nat)
      (email firstName lastName : String) (emailConfirmed : Bool),
      (∀ profile invites2,
        registerStaffSignup invites token now uid email firstName lastName
            emailConfirmed = .ok (profile, invites2) →
          ∃ inv, inv ∈ invites ∧ inv.token = token ∧ inv.used = false ∧
            now < inv.expires_at ∧ profile.role = .staff ∧
            profile.business_id = some inv.business_id ∧
            ∀ j ∈ invites2, j.token = token → j.used = true) ∧
      ((∀ inv ∈ invites, inv.token = token → inv.used = true ∨ inv.expires_at ≤ now) →
        registerStaffSignup invites token now uid email firstName lastName
            emailConfirmed = .error ("Invalid or expired invite link")) := by
  intro invites token now uid email firstName lastName emailConfirmed
  constructor
  · intro profile invites2 hok
    cases hfind : findValidInvite invites token now with
    | none =>
      rw [registerStaffSignup, hfind] at hok
      exact absurd hok (by simp)
    | some inv =>
      rw [registerStaffSignup, hfind] at hok
      have hpair := (Except.ok.injEq _ _).mp hok.symm
      have hprof : profile = signUpProfileRow uid email firstName lastName .staff
          emailConfirmed (some inv.business_id) := congrArg Prod.fst hpair
      have hinv2 : invites2 = invites.map fun i =>
          if i.token = token then { i with used := true, used_at := some now } else i :=
        congrArg Prod.snd hpair
      have hmem : inv ∈ invites := List.mem_of_find?_eq_some hfind
      have hpred := List.find?_some hfind
      simp only [Bool.and_eq_true, decide_eq_true_eq] at hpred
      refine ⟨inv, hmem, hpred.1.1, hpred.1.2, hpred.2, ?_, ?_, ?_⟩
      · rw [hprof]; rfl
      · rw [hprof]; rfl
      · intro j hj hjtok
        rw [hinv2] at hj
        rcases List.mem_map.1 hj with ⟨i, _, hfi⟩
        by_cases hit : i.token = token
        · rw [if_pos hit] at hfi
          rw [← hfi]
        · rw [if_neg hit] at hfi
          rw [← hfi] at hjtok
          exact absurd hjtok hit
  · intro hall
    have hfind : findValidInvite invites token now = none := by
      rw [findValidInvite, List.find?_eq_none]
      intro x hx hcontra
      simp only [Bool.and_eq_true, decide_eq_true_eq] at hcontra
      obtain ⟨⟨htok, hunused⟩, hexp⟩ := hcontra
      rcases hall x hx htok with hused | hexpired
      · rw [hunused] at hused
        exact absurd hused (by simp)
      · omega
    rw [registerStaffSignup, hfind]

/-- C9 witness: a live invite is accepted for its business and marked
used, and the same invite already marked used is rejected. -/
theorem staff_invite_acceptance_witness :
    (∃ inv, inv ∈ [({ token := "tok1", business_id := 10, email := "s@a.example"
                      used := false, used_at := none, expires_at := 500 } : StaffInviteRow)] ∧
      inv.token = "tok1" ∧ inv.used = false ∧ (100 : Nat) < inv.expires_at ∧
      (signUpProfileRow 7 ("s@a.example") ("Sam") ("S") .staff false (some 10)).role
          = .staff ∧
      (signUpProfileRow 7 ("s@a.example") ("Sam") ("S") .staff false (some 10)).business_id
          = some inv.business_id ∧
      ∀ j ∈ [({ token := "tok1", business_id := 10, email := "s@a.example"
                used := true, used_at := some 100, expires_at := 500 } : StaffInviteRow)],
        j.token = "tok1" → j.used = true) ∧
    registerStaffSignup
        [({ token := "tok1", business_id := 10, email := "s@a.example"
            used := true, used_at := some 90, expires_at := 500 } : StaffInviteRow)]
        ("tok1") 100 7 ("s@a.example") ("Sam") ("S") false =
      .error ("Invalid or expired invite link") := by
  constructor
  · have h := (staff_invite_acceptance
      [({ token := "tok1", business_id := 10, email := "s@a.example"
          used := false, used_at := none, expires_at := 500 } : StaffInviteRow)]
      ("tok1") 100 7 ("s@a.example") ("Sam") ("S") false).1
      (signUpProfileRow 7 ("s@a.example") ("Sam") ("S") .staff false (some 10))
      [({ token := "tok1", business_id := 10, email := "s@a.example"
          used := true, used_at := some 100, expires_at := 500 } : StaffInviteRow)]
      (by rfl)
    exact h
  · exact (staff_invite_acceptance
      [({ token := "tok1", business_id := 10, email := "s@a.example"
          used := true, used_at := some 90, expires_at := 500 } : StaffInviteRow)]
      ("tok1") 100 7 ("s@a.example") ("Sam") ("S") false).2
      (by intro inv hinv _; left; rw [List.mem_singleton.1 hinv])

end DxMian
